import Mathlib

/-!
Verification development for the LiveKit translation server
(server/main.py and server/supabase_service.py).

The Python source is embedded shallowly: pure helpers become Lean
functions over lists and strings, the stateful session/translation
objects become explicit state records, and every external side effect
(database call, caption publish, webhook notification) is recorded in an
explicit effect trace returned by the embedded operation.  External
collaborators that can fail (the completion stream, the Supabase
client) are modelled by explicit outcome parameters, mirroring the
try/except structure of the source.
-/

set_option autoImplicit false

namespace JamaTranslator

/-! ## Sentence segmentation (main.py, extract_complete_sentences)

Python strings are modelled as lists of characters; the default
Python str.strip is modelled by dropping whitespace characters from
both ends of the list. -/

/-- Model of Python str.strip with no arguments: remove leading and
trailing whitespace characters. -/
def pyStrip (s : List Char) : List Char :=
  ((s.dropWhile Char.isWhitespace).reverse.dropWhile Char.isWhitespace).reverse

/-- The fixed terminator set of extract_complete_sentences
(main.py line 334, arabic_endings). -/
def arabicEndings : List Char := ['۔', '؟', '!', '.', '?']

/-- One step of the character scan of extract_complete_sentences
(main.py lines 339-345): accumulate the character; on a terminator,
close the candidate, strip it, and emit it only when its stripped
length exceeds 5. -/
def scanStep (acc : List (List Char) × List Char) (c : Char) :
    List (List Char) × List Char :=
  let cur := acc.2 ++ [c]
  if arabicEndings.contains c then
    let sentence := pyStrip cur
    (if 5 < sentence.length then acc.1 ++ [sentence] else acc.1, [])
  else
    (acc.1, cur)

/-- Embedding of extract_complete_sentences (main.py lines 328-351).
The Python guard, which returns early for empty text or stripped
length below 3, collapses to the
single stripped-length test because an empty text strips to length 0. -/
def extract_complete_sentences (text : List Char) : List (List Char) :=
  if (pyStrip text).length < 3 then []
  else
    let r := text.foldl scanStep ([], [])
    if 10 < (pyStrip r.2).length then r.1 ++ [pyStrip r.2] else r.1

lemma foldl_scanStep_no_term :
    ∀ (l : List Char) (ss : List (List Char)) (cur : List Char),
      (∀ c ∈ l, arabicEndings.contains c = false) →
      l.foldl scanStep (ss, cur) = (ss, cur ++ l) := by
  intro l
  induction l with
  | nil => intro ss cur _; simp
  | cons c rest ih =>
    intro ss cur h
    have hc : arabicEndings.contains c = false := h c (List.mem_cons_self c rest)
    have hrest : ∀ x ∈ rest, arabicEndings.contains x = false :=
      fun x hx => h x (List.mem_cons_of_mem _ hx)
    have hc' : c ∉ arabicEndings := by simpa using hc
    have hstep : scanStep (ss, cur) c = (ss, cur ++ [c]) := by
      simp [scanStep, hc']
    simp only [List.foldl_cons, hstep, ih _ _ hrest, List.append_assoc,
      List.singleton_append]

lemma foldl_scanStep_snd_after_term (p : List Char) (t : Char)
    (s : List (List Char) × List Char)
    (ht : arabicEndings.contains t = true) :
    ((p ++ [t]).foldl scanStep s).2 = [] := by
  have ht' : t ∈ arabicEndings := by simpa using ht
  rw [List.foldl_append]
  simp [scanStep, ht']

/-- Claim C6: for an input whose only terminal punctuation mark is its
last character and whose stripped length exceeds 5, the segmenter
returns exactly that segment, stripped, as a one-element list. -/
theorem extract_single_terminated_sentence (body : List Char) (t : Char)
    (ht : arabicEndings.contains t = true)
    (hbody : ∀ c ∈ body, arabicEndings.contains c = false)
    (hlen : 5 < (pyStrip (body ++ [t])).length) :
    extract_complete_sentences (body ++ [t]) = [pyStrip (body ++ [t])] := by
  have hguard : ¬ (pyStrip (body ++ [t])).length < 3 := by omega
  have ht' : t ∈ arabicEndings := by simpa using ht
  have hfold : (body ++ [t]).foldl scanStep ([], []) = ([pyStrip (body ++ [t])], []) := by
    rw [List.foldl_append, foldl_scanStep_no_term body [] [] hbody]
    simp [scanStep, ht', hlen]
  unfold extract_complete_sentences
  rw [if_neg hguard, hfold]
  simp [pyStrip]

/-- Witness for the claim C6 theorem at a concrete input. -/
theorem extract_single_terminated_sentence_data :
    arabicEndings.contains '.' = true ∧
    (∀ c ∈ ("hello".data), arabicEndings.contains c = false) ∧
    5 < (pyStrip ("hello".data ++ ['.'])).length ∧
    extract_complete_sentences ("hello".data ++ ['.']) = [pyStrip ("hello".data ++ ['.'])] :=
  ⟨by decide, by decide, by decide,
    extract_single_terminated_sentence "hello".data '.' (by decide) (by decide) (by decide)⟩

/-- Claim C7: trailing unterminated text after the last terminator (or
the whole input when no terminator occurs, i.e. pre = []) is dropped
when its stripped length is at most 10 and emitted stripped as the
final element when its stripped length exceeds 10. -/
theorem extract_trailing_text_rule (pre tail : List Char)
    (htail : ∀ c ∈ tail, arabicEndings.contains c = false)
    (hpre : pre = [] ∨ ∃ p t, pre = p ++ [t] ∧ arabicEndings.contains t = true)
    (hguard : ¬ (pyStrip (pre ++ tail)).length < 3) :
    extract_complete_sentences (pre ++ tail) =
      (pre.foldl scanStep ([], [])).1 ++
        (if 10 < (pyStrip tail).length then [pyStrip tail] else []) := by
  have hcur : (pre.foldl scanStep ([], [])).2 = [] := by
    rcases hpre with h | ⟨p, t, hp, ht⟩
    · simp [h]
    · rw [hp]; exact foldl_scanStep_snd_after_term p t _ ht
  have hpair : pre.foldl scanStep ([], []) = ((pre.foldl scanStep ([], [])).1, []) :=
    Prod.ext rfl hcur
  have hfold : (pre ++ tail).foldl scanStep ([], []) =
      ((pre.foldl scanStep ([], [])).1, tail) := by
    rw [List.foldl_append, hpair, foldl_scanStep_no_term tail _ [] htail]
    simp
  unfold extract_complete_sentences
  rw [if_neg hguard, hfold]
  by_cases h10 : 10 < (pyStrip tail).length
  · simp [h10]
  · simp [h10]

/-- Witness for the claim C7 theorem at concrete inputs covering both
the emitted case and the dropped case. -/
theorem extract_trailing_text_rule_data :
    extract_complete_sentences ("hello there.".data ++ " this tail is long enough".data) =
      (("hello there.".data).foldl scanStep ([], [])).1 ++
        (if 10 < (pyStrip " this tail is long enough".data).length
          then [pyStrip " this tail is long enough".data] else []) ∧
    extract_complete_sentences ("hello there.".data ++ " shorty".data) =
      (("hello there.".data).foldl scanStep ([], [])).1 ++
        (if 10 < (pyStrip " shorty".data).length
          then [pyStrip " shorty".data] else []) :=
  ⟨extract_trailing_text_rule "hello there.".data " this tail is long enough".data
      (by decide) (Or.inr ⟨"hello there".data, '.', by decide, by decide⟩) (by decide),
    extract_trailing_text_rule "hello there.".data " shorty".data
      (by decide) (Or.inr ⟨"hello there".data, '.', by decide, by decide⟩) (by decide)⟩

/-! ## Translation service (main.py, class TranslationService)

The chat context is a list of role/content messages; the OpenAI
completion collaborator is modelled by an explicit outcome: either a
failure (any exception raised by llm.chat or while consuming the
stream) or the list of streamed chunks, each chunk carrying an
optional content delta. -/

/-- Chat message roles used by the service (system prompt and the
appended user inputs; the service never appends assistant messages). -/
inductive Role where
  | system
  | user
deriving DecidableEq, BEq

/-- One message of the llm.ChatContext message list. -/
structure ChatMessage where
  role : Role
  content : String
deriving DecidableEq, BEq

/-- Model of Python str.strip on Lean strings, via pyStrip. -/
def pyStripStr (s : String) : String := ⟨pyStrip s.data⟩

/-- Outcome of the completion collaborator for one call: failure models
any exception from llm.chat or from iterating its stream; success
carries the streamed content deltas (none models a chunk whose delta or
content is missing). -/
inductive CompletionOutcome where
  | failure
  | success (chunks : List (Option String))
deriving DecidableEq, BEq

/-- Chunk concatenation of translate_text (main.py lines 117-120): a
chunk contributes its content only when the content is present and
non-empty (the Python truthiness test on chunk.delta.content). -/
def collectChunks (chunks : List (Option String)) : String :=
  chunks.foldl
    (fun acc c =>
      match c with
      | some s => if s = "" then acc else acc ++ s
      | none => acc)
    ""

/-- The system prompt built in TranslationService.__init__
(main.py lines 79-87). -/
def mkSystemPrompt (source_language target_language : String) : String :=
  "You are a professional simultaneous interpreter for Islamic religious content. " ++
  "Translate the provided " ++ source_language ++ " text to " ++ target_language ++ ". " ++
  "Rules: 1) Translate ONLY the most recent sentence. " ++
  "2) Be accurate and respectful with religious terminology. " ++
  "3) Use natural, spoken language appropriate for live translation. " ++
  "4) Return ONLY the translation, no explanations. " ++
  "5) Maintain the tone and meaning of the original."

/-- State of a TranslationService instance (main.py lines 69-90).
room_identity models room.local_participant.identity, used when
publishing transcriptions. -/
structure TranslationService where
  room_identity : String
  target_language : String
  source_language : String
  use_context : Bool
  context : List ChatMessage
  message_count : Nat
  max_context_messages : Nat
  system_prompt : String
deriving DecidableEq

/-- TranslationService.__init__ (main.py lines 69-90): context enabled,
ceiling 9, context initialised to the single system message. -/
def TranslationService.init (room_identity target_language source_language : String) :
    TranslationService :=
  { room_identity := room_identity
    target_language := target_language
    source_language := source_language
    use_context := true
    context := [⟨Role.system, mkSystemPrompt source_language target_language⟩]
    message_count := 0
    max_context_messages := 9
    system_prompt := mkSystemPrompt source_language target_language }

/-- An audio track; only its sid is observable to the embedded code. -/
structure Track where
  sid : String
deriving DecidableEq, BEq

/-- A caption segment as built by _publish_transcription
(main.py lines 138-145). -/
structure TranscriptionSegment where
  sgid : String
  text : String
  start_time : Nat
  end_time : Nat
  language : String
  final : Bool
deriving DecidableEq, BEq

/-- A transcription event as built by _publish_transcription
(main.py lines 147-151). -/
structure Transcription where
  participant_identity : String
  track_sid : String
  segments : List TranscriptionSegment
deriving DecidableEq, BEq

/-- Embedding of _publish_transcription (main.py lines 135-156): one final segment
with zero start and end times, in the target language, attributed to
the local participant and the track (empty sid when no track).  The
fresh segment id generated by shortuuid is passed in as sgid. -/
def publish_transcription (svc : TranslationService) (text : String)
    (track : Option Track) (sgid : String) : Transcription :=
  { participant_identity := svc.room_identity
    track_sid := match track with | some t => t.sid | none => ""
    segments := [⟨sgid, text, 0, 0, svc.target_language, true⟩] }

/-- Context update and request assembly of translate_text
(main.py lines 97-114): in context mode append the user message,
reset the context to the single system message when the count exceeds
the ceiling, and issue the request against the resulting context; in
fresh-context mode build a one-shot system+user context without
touching the service state.  Returns the updated service state and the
message list handed to llm.chat. -/
def translate_request (svc : TranslationService) (text : String) :
    TranslationService × List ChatMessage :=
  if svc.use_context then
    let ctx1 := svc.context ++ [⟨Role.user, text⟩]
    let cnt1 := svc.message_count + 1
    if svc.max_context_messages < cnt1 then
      let ctx2 : List ChatMessage := [⟨Role.system, svc.system_prompt⟩]
      ({ svc with context := ctx2, message_count := 0 }, ctx2)
    else
      ({ svc with context := ctx1, message_count := cnt1 }, ctx1)
  else
    (svc, [⟨Role.system, svc.system_prompt⟩, ⟨Role.user, text⟩])

/-- Result of one translate_text call: the updated service state, the
returned string, the published transcription events, and the message
list the completion request was issued against. -/
structure TranslateResult where
  service : TranslationService
  returned : String
  published : List Transcription
  request : List ChatMessage
deriving DecidableEq

/-- translate_text (main.py lines 94-133).  On completion success the
streamed chunks are concatenated, stripped, published to the room and
returned; on any completion failure the except branch returns the
original input text, and the publish is never reached.  The context
mutation performed before the request survives either way. -/
def translate_text (svc : TranslationService) (text : String) (track : Option Track)
    (outcome : CompletionOutcome) (sgid : String) : TranslateResult :=
  let st := translate_request svc text
  match outcome with
  | CompletionOutcome.failure => ⟨st.1, text, [], st.2⟩
  | CompletionOutcome.success chunks =>
    let translated := pyStripStr (collectChunks chunks)
    ⟨st.1, translated, [publish_transcription st.1 translated track sgid], st.2⟩

lemma translate_text_service (svc : TranslationService) (text : String)
    (track : Option Track) (outcome : CompletionOutcome) (sgid : String) :
    (translate_text svc text track outcome sgid).service = (translate_request svc text).1 := by
  cases outcome <;> rfl

lemma translate_request_fields (svc : TranslationService) (text : String) :
    (translate_request svc text).1.room_identity = svc.room_identity ∧
    (translate_request svc text).1.target_language = svc.target_language := by
  unfold translate_request
  split
  · dsimp only
    split <;> exact ⟨rfl, rfl⟩
  · exact ⟨rfl, rfl⟩

/-- Claim C3: on any failure of the completion collaborator,
translate_text returns the original input text unchanged (the embedded
function is total, modelling that no exception propagates). -/
theorem translate_failure_passthrough (svc : TranslationService) (text : String)
    (track : Option Track) (sgid : String) :
    (translate_text svc text track CompletionOutcome.failure sgid).returned = text := rfl

/-- Counterexample to claim C2 as stated: a translate_text call whose
completion fails still returns, but publishes no transcription event at
all, so it does not publish exactly one event. -/
theorem translate_failure_publishes_nothing :
    (translate_text (TranslationService.init "agent" "en" "ar") "hello world"
        (some ⟨"TR_1"⟩) CompletionOutcome.failure "SG_1").published = [] ∧
    (translate_text (TranslationService.init "agent" "en" "ar") "hello world"
        (some ⟨"TR_1"⟩) CompletionOutcome.failure "SG_1").returned = "hello world" :=
  ⟨rfl, rfl⟩

/-- Claim C2 (amended): every translate_text call whose completion
succeeds publishes exactly one transcription event, attributed to the
local participant and the given track, marked final, with start and end
times zero, carrying the returned translated text in the target
language; on completion failure no event is published. -/
theorem translate_success_publishes_one (svc : TranslationService) (text : String)
    (track : Option Track) (chunks : List (Option String)) (sgid : String) :
    (translate_text svc text track (CompletionOutcome.success chunks) sgid).published =
      [⟨svc.room_identity,
        match track with | some t => t.sid | none => "",
        [⟨sgid, (translate_text svc text track (CompletionOutcome.success chunks) sgid).returned,
          0, 0, svc.target_language, true⟩]⟩] ∧
    (translate_text svc text track CompletionOutcome.failure sgid).published = [] := by
  constructor
  · show [publish_transcription (translate_request svc text).1
        (pyStripStr (collectChunks chunks)) track sgid] = _
    unfold publish_transcription
    simp only [(translate_request_fields svc text).1, (translate_request_fields svc text).2]
    rfl
  · rfl

/-- The inputs of one translate_text call: the text, the originating
track, the completion outcome, and the fresh segment id. -/
structure CallInput where
  text : String
  track : Option Track
  outcome : CompletionOutcome
  sgid : String
deriving DecidableEq

/-- Run a sequence of translate_text calls on one service instance,
threading the service state. -/
def runCalls (svc : TranslationService) (calls : List CallInput) : TranslationService :=
  calls.foldl (fun s c => (translate_text s c.text c.track c.outcome c.sgid).service) svc

/-- The state invariant of the rolling conversation context: context
mode enabled, ceiling 9, and the context is the fixed system message
followed by at most 9 user messages, counted by message_count. -/
def CtxInv (sys : String) (svc : TranslationService) : Prop :=
  svc.use_context = true ∧
  svc.max_context_messages = 9 ∧
  svc.system_prompt = sys ∧
  svc.message_count ≤ 9 ∧
  ∃ users : List ChatMessage,
    svc.context = ChatMessage.mk Role.system sys :: users ∧
    users.length = svc.message_count ∧
    ∀ m ∈ users, m.role = Role.user

lemma ctxInv_init (room_identity target_language source_language : String) :
    CtxInv (mkSystemPrompt source_language target_language)
      (TranslationService.init room_identity target_language source_language) :=
  ⟨rfl, rfl, rfl, Nat.zero_le 9, [], rfl, rfl, by simp⟩

lemma ctxInv_step (sys : String) (svc : TranslationService) (c : CallInput)
    (h : CtxInv sys svc) :
    CtxInv sys (translate_text svc c.text c.track c.outcome c.sgid).service ∧
    (translate_text svc c.text c.track c.outcome c.sgid).service.message_count
      = (svc.message_count + 1) % 10 := by
  obtain ⟨hu, hm, hs, hle, users, hctx, hlen, hroles⟩ := h
  rw [translate_text_service]
  unfold translate_request
  rw [if_pos hu]
  by_cases h9 : svc.message_count = 9
  · rw [if_pos (show svc.max_context_messages < svc.message_count + 1 by omega)]
    refine ⟨⟨hu, hm, hs, Nat.zero_le 9, [], ?_, rfl, by simp⟩, ?_⟩
    · show [ChatMessage.mk Role.system svc.system_prompt] = [ChatMessage.mk Role.system sys]
      rw [hs]
    · show 0 = (svc.message_count + 1) % 10
      omega
  · rw [if_neg (show ¬ svc.max_context_messages < svc.message_count + 1 by omega)]
    refine ⟨⟨hu, hm, hs, ?_, users ++ [⟨Role.user, c.text⟩], ?_, ?_, ?_⟩, ?_⟩
    · show svc.message_count + 1 ≤ 9
      omega
    · show svc.context ++ [ChatMessage.mk Role.user c.text] =
        ChatMessage.mk Role.system sys :: (users ++ [ChatMessage.mk Role.user c.text])
      rw [hctx]; simp
    · show (users ++ [ChatMessage.mk Role.user c.text]).length = svc.message_count + 1
      simp [hlen]
    · intro m hmem
      rcases List.mem_append.mp hmem with hmem | hmem
      · exact hroles m hmem
      · simp at hmem; rw [hmem]
    · show svc.message_count + 1 = (svc.message_count + 1) % 10
      omega

lemma runCalls_inv (sys : String) :
    ∀ (calls : List CallInput) (svc : TranslationService), CtxInv sys svc →
      CtxInv sys (runCalls svc calls) ∧
      (runCalls svc calls).message_count = (svc.message_count + calls.length) % 10 := by
  intro calls
  induction calls with
  | nil =>
    intro svc h
    refine ⟨h, ?_⟩
    have := h.2.2.2.1
    simp [runCalls]
    omega
  | cons c cs ih =>
    intro svc h
    have hstep := ctxInv_step sys svc c h
    have hnext := ih _ hstep.1
    have hrun : runCalls svc (c :: cs) =
        runCalls (translate_text svc c.text c.track c.outcome c.sgid).service cs := by
      simp [runCalls]
    rw [hrun]
    refine ⟨hnext.1, ?_⟩
    rw [hnext.2, hstep.2]
    simp only [List.length_cons]
    omega

/-- Claim C4: after any sequence of translate_text calls on a freshly
constructed service, the context begins with the fixed system message
and holds at most 9 non-system messages; after exactly 10 calls the
context is back to the single system message (length 1) and the counter
is zero. -/
theorem context_reset_policy (room_identity target_language source_language : String)
    (calls : List CallInput) :
    (runCalls (TranslationService.init room_identity target_language source_language)
        calls).context.head? =
      some ⟨Role.system, mkSystemPrompt source_language target_language⟩ ∧
    ((runCalls (TranslationService.init room_identity target_language source_language)
        calls).context.filter (fun m => !(m.role == Role.system))).length ≤ 9 ∧
    (calls.length = 10 →
      (runCalls (TranslationService.init room_identity target_language source_language)
          calls).context =
        [⟨Role.system, mkSystemPrompt source_language target_language⟩] ∧
      (runCalls (TranslationService.init room_identity target_language source_language)
          calls).message_count = 0) := by
  have h := runCalls_inv (mkSystemPrompt source_language target_language) calls
    (TranslationService.init room_identity target_language source_language)
    (ctxInv_init room_identity target_language source_language)
  obtain ⟨⟨_, _, _, hle, users, hctx, hlen, hroles⟩, hcount⟩ := h
  refine ⟨?_, ?_, ?_⟩
  · rw [hctx]; rfl
  · rw [hctx]
    rw [List.filter_cons_of_neg (fun h => Bool.noConfusion h)]
    calc (users.filter fun m => !(m.role == Role.system)).length
        ≤ users.length := List.length_filter_le _ _
      _ ≤ 9 := by omega
  · intro h10
    have hzero : (TranslationService.init room_identity target_language
        source_language).message_count = 0 := rfl
    rw [h10, hzero] at hcount
    have husers : users = [] := List.length_eq_zero.mp (by omega)
    rw [hctx, husers]
    exact ⟨rfl, by omega⟩

/-- A sample sequence of ten translate calls for the claim C4 witness. -/
def tenCalls : List CallInput :=
  List.replicate 10 ⟨"call text", none, CompletionOutcome.failure, "SG_0"⟩

/-- Witness for the claim C4 theorem: ten successive calls bring the
context back to the single system message. -/
theorem context_reset_policy_data :
    tenCalls.length = 10 ∧
    (runCalls (TranslationService.init "agent" "en" "ar") tenCalls).context =
      [⟨Role.system, mkSystemPrompt "ar" "en"⟩] ∧
    (runCalls (TranslationService.init "agent" "en" "ar") tenCalls).message_count = 0 :=
  ⟨by decide, (context_reset_policy "agent" "en" "ar" tenCalls).2.2 (by decide)⟩

/-- Claim C9: when the service sits at the ceiling (message_count = 9,
ceiling 9, context mode on), the very next translate_text call resets
before issuing the request, so the completion request of that call is
made against the single system message and the just-appended user
message is absent from the request. -/
theorem reset_drops_triggering_message (svc : TranslationService) (text : String)
    (track : Option Track) (outcome : CompletionOutcome) (sgid : String)
    (hu : svc.use_context = true) (hm : svc.max_context_messages = 9)
    (hc : svc.message_count = 9) :
    (translate_text svc text track outcome sgid).request =
      [⟨Role.system, svc.system_prompt⟩] ∧
    ChatMessage.mk Role.user text ∉ (translate_text svc text track outcome sgid).request := by
  have hreq : (translate_text svc text track outcome sgid).request =
      (translate_request svc text).2 := by
    cases outcome <;> rfl
  have hr : (translate_request svc text).2 = [⟨Role.system, svc.system_prompt⟩] := by
    unfold translate_request
    rw [if_pos hu]
    rw [if_pos (show svc.max_context_messages < svc.message_count + 1 by omega)]
  refine ⟨by rw [hreq, hr], ?_⟩
  rw [hreq, hr]
  intro hmem
  simp at hmem

/-- Witness for the claim C9 theorem at a concrete service state. -/
theorem reset_drops_triggering_message_data :
    ({ TranslationService.init "agent" "en" "ar" with message_count := 9 }.use_context = true) ∧
    ({ TranslationService.init "agent" "en" "ar" with message_count := 9 }.max_context_messages = 9) ∧
    ({ TranslationService.init "agent" "en" "ar" with message_count := 9 }.message_count = 9) ∧
    ((translate_text { TranslationService.init "agent" "en" "ar" with message_count := 9 }
        "the tenth sentence" none CompletionOutcome.failure "SG_9").request =
      [⟨Role.system,
        { TranslationService.init "agent" "en" "ar" with message_count := 9 }.system_prompt⟩] ∧
      ChatMessage.mk Role.user "the tenth sentence" ∉
        (translate_text { TranslationService.init "agent" "en" "ar" with message_count := 9 }
          "the tenth sentence" none CompletionOutcome.failure "SG_9").request) :=
  ⟨rfl, rfl, rfl,
    reset_drops_triggering_message
      { TranslationService.init "agent" "en" "ar" with message_count := 9 }
      "the tenth sentence" none CompletionOutcome.failure "SG_9" rfl rfl rfl⟩

/-! ## Supabase service and room session manager
(supabase_service.py and main.py, class RoomSessionManager)

The datastore is modelled as explicit tables of records; every
database access, caption publish and webhook notification is recorded
in an effect trace.  Failure parameters model exceptions raised by the
Supabase client at the corresponding call sites; each embedded function
returns instead of raising, mirroring its try/except wrapper. -/

/-- Session status values used by room_sessions rows. -/
inductive SessionStatus where
  | active
  | completed
deriving DecidableEq, BEq

/-- A room_sessions row.  logging_enabled is optional because
is_session_logging_enabled reads it with .get and a False default.
Session ids are the datastore-generated keys, modelled as naturals. -/
structure SessionRecord where
  id : Nat
  room_id : Nat
  mosque_id : Nat
  status : SessionStatus
  logging_enabled : Option Bool
  transcript_count : Nat
  ended_at : Option Nat
deriving DecidableEq, BEq

/-- A transcripts row (supabase_service.py lines 123-129). -/
structure TranscriptRow where
  room_id : Nat
  session_id : Nat
  transcription_segment : String
  translation_segment : String
  timestamp : Nat
deriving DecidableEq, BEq

/-- The datastore state: the two tables touched by the embedded code
and the id the next inserted session row receives. -/
structure DB where
  sessions : List SessionRecord
  transcripts : List TranscriptRow
  next_session_id : Nat
deriving DecidableEq

/-- Observable side effects of the embedded operations: datastore
calls, caption publishes and webhook notifications. -/
inductive Effect where
  | dbQueryActiveSession (room_id : Nat)
  | dbInsertSession (room_id mosque_id : Nat)
  | dbUpdateSessionCompleted (id : Nat)
  | dbInsertTranscript (room_id session_id : Nat) (src tr : String)
  | dbReadCount (session_id : Nat)
  | dbWriteCount (session_id : Nat) (n : Nat)
  | publish (t : Transcription)
  | notify (room_id mosque_id : Nat) (src tr : String)
deriving DecidableEq

/-- get_active_session (supabase_service.py lines 50-61): first row of
the room_sessions table matching the room id with status active; on a
client exception (qfail) the except branch returns None. -/
def get_active_session (db : DB) (room_id : Nat) (qfail : Bool) :
    Option SessionRecord × List Effect :=
  (if qfail then none
   else (db.sessions.filter fun s =>
      s.room_id == room_id && s.status == SessionStatus.active).head?,
   [Effect.dbQueryActiveSession room_id])

/-- SupabaseService.start_session (supabase_service.py lines 63-92):
adopt an already-active session id, otherwise insert a fresh active row
with logging enabled and zero transcript count; ifail models an insert
exception or an insert returning no data, in which case None is
returned. -/
def sb_start_session (db : DB) (room_id mosque_id : Nat) (qfail ifail : Bool) :
    DB × Option Nat × List Effect :=
  let q := get_active_session db room_id qfail
  match q.1 with
  | some s => (db, some s.id, q.2)
  | none =>
    if ifail then (db, none, q.2 ++ [Effect.dbInsertSession room_id mosque_id])
    else
      let srec : SessionRecord :=
        ⟨db.next_session_id, room_id, mosque_id, SessionStatus.active, some true, 0, none⟩
      ({ db with
          sessions := db.sessions ++ [srec]
          next_session_id := db.next_session_id + 1 },
       some db.next_session_id,
       q.2 ++ [Effect.dbInsertSession room_id mosque_id])

/-- SupabaseService.stop_session (supabase_service.py lines 94-118):
look up the active session and mark it completed with an end timestamp;
returns False when no session is active or the update fails (ufail). -/
def sb_stop_session (db : DB) (room_id : Nat) (qfail ufail : Bool) (now : Nat) :
    DB × Bool × List Effect :=
  let q := get_active_session db room_id qfail
  match q.1 with
  | none => (db, false, q.2)
  | some s =>
    if ufail then (db, false, q.2 ++ [Effect.dbUpdateSessionCompleted s.id])
    else
      ({ db with sessions := db.sessions.map fun r =>
          if r.id == s.id then
            { r with status := SessionStatus.completed, ended_at := some now }
          else r },
       true, q.2 ++ [Effect.dbUpdateSessionCompleted s.id])

/-- update_session_transcript_count (supabase_service.py lines
145-162): read the current count of the session row and write the
incremented value back. -/
def update_session_transcript_count (db : DB) (session_id : Nat) : DB × List Effect :=
  match (db.sessions.filter fun s => s.id == session_id).head? with
  | none => (db, [Effect.dbReadCount session_id])
  | some s =>
    ({ db with sessions := db.sessions.map fun r =>
        if r.id == session_id then { r with transcript_count := s.transcript_count + 1 }
        else r },
     [Effect.dbReadCount session_id,
      Effect.dbWriteCount session_id (s.transcript_count + 1)])

/-- save_transcript (supabase_service.py lines 120-143): insert the
transcript row and, when the insert succeeds, increment the session
transcript count; ifail models an insert exception or empty insert
result. -/
def save_transcript (db : DB) (room_id session_id : Nat)
    (arabic_text translation : String) (ifail : Bool) (now : Nat) :
    DB × Bool × List Effect :=
  if ifail then (db, false, [Effect.dbInsertTranscript room_id session_id arabic_text translation])
  else
    let row : TranscriptRow := ⟨room_id, session_id, arabic_text, translation, now⟩
    let db1 := { db with transcripts := db.transcripts ++ [row] }
    let upd := update_session_transcript_count db1 session_id
    (upd.1, true,
     Effect.dbInsertTranscript room_id session_id arabic_text translation :: upd.2)

/-- is_session_logging_enabled (supabase_service.py lines 213-223):
the logging_enabled field of the active session, defaulting to False
when the field is absent, when no session is active, or on a query
error. -/
def is_session_logging_enabled (db : DB) (room_id : Nat) (qfail : Bool) :
    Bool × List Effect :=
  let q := get_active_session db room_id qfail
  (match q.1 with
   | some s => s.logging_enabled.getD false
   | none => false,
   q.2)

/-- send_to_websocket_logger (supabase_service.py lines 164-194): a
single fire-and-forget POST when the logger URL is configured, nothing
otherwise. -/
def send_to_websocket_logger (ws_configured : Bool) (room_id mosque_id : Nat)
    (arabic_text translation : String) : List Effect :=
  if ws_configured then [Effect.notify room_id mosque_id arabic_text translation] else []

/-- The in-process session cache SupabaseService.active_sessions,
keyed by LiveKit room name; assignment prepends and shadows. -/
def set_session_info (cache : List (String × Nat × Nat × Nat)) (name : String)
    (info : Nat × Nat × Nat) : List (String × Nat × Nat × Nat) :=
  (name, info) :: cache.filter fun p => !(p.1 == name)

/-- get cached session information (supabase_service.py lines 247-249). -/
def get_session_info (cache : List (String × Nat × Nat × Nat)) (name : String) :
    Option (Nat × Nat × Nat) :=
  ((cache.filter fun p => p.1 == name).head?).map Prod.snd

/-- remove cached session information (supabase_service.py lines 255-258). -/
def remove_session_info (cache : List (String × Nat × Nat × Nat)) (name : String) :
    List (String × Nat × Nat × Nat) :=
  cache.filter fun p => !(p.1 == name)

/-- The room row data held by the manager: id, mosque_id, Title. -/
structure RoomData where
  id : Nat
  mosque_id : Nat
  title : String
deriving DecidableEq

/-- The denormalized active-session descriptor the manager caches
(main.py lines 213-217): id, room_id, mosque_id. -/
structure ActiveSessionInfo where
  id : Nat
  room_id : Nat
  mosque_id : Nat
deriving DecidableEq

/-- State of a RoomSessionManager instance (main.py lines 162-167). -/
structure ManagerState where
  room_name : String
  room_data : Option RoomData
  active_session : Option ActiveSessionInfo
  translation_service : Option TranslationService
deriving DecidableEq

/-- The shared world state outside the manager: the datastore and the
in-process session cache of the Supabase service singleton. -/
structure World where
  db : DB
  cache : List (String × Nat × Nat × Nat)
deriving DecidableEq

/-- RoomSessionManager.start_session (main.py lines 200-225): no-op
without room data; otherwise ask the Supabase service to start or adopt
a session and, when an id comes back, store the descriptor on the
manager and in the shared cache. -/
def mgr_start_session (mgr : ManagerState) (w : World) (qfail ifail : Bool) :
    ManagerState × World × List Effect :=
  match mgr.room_data with
  | none => (mgr, w, [])
  | some rd =>
    let r := sb_start_session w.db rd.id rd.mosque_id qfail ifail
    match r.2.1 with
    | none => (mgr, { w with db := r.1 }, r.2.2)
    | some sid =>
      ({ mgr with active_session := some ⟨sid, rd.id, rd.mosque_id⟩ },
       { db := r.1,
         cache := set_session_info w.cache mgr.room_name (sid, rd.id, rd.mosque_id) },
       r.2.2)

/-- RoomSessionManager.stop_session (main.py lines 227-238): only when
both room data and an active session descriptor are present, stop the
persisted session and evict the cache entry; the manager field itself
is not cleared by the source. -/
def mgr_stop_session (mgr : ManagerState) (w : World) (qfail ufail : Bool) (now : Nat) :
    ManagerState × World × List Effect :=
  match mgr.room_data, mgr.active_session with
  | some rd, some _ =>
    let r := sb_stop_session w.db rd.id qfail ufail now
    (mgr,
     { db := r.1, cache := remove_session_info w.cache mgr.room_name },
     r.2.2)
  | _, _ => (mgr, w, [])

/-- The per-call external environment of handle_transcription: the
completion outcome, the fresh segment id, the failure switches of the
two datastore calls, whether the webhook URL is configured, and the
current time used for the transcript timestamp. -/
structure HandleEnv where
  outcome : CompletionOutcome
  sgid : String
  qfail_logging : Bool
  ifail_transcript : Bool
  ws_configured : Bool
  now : Nat
deriving DecidableEq

/-- RoomSessionManager.handle_transcription (main.py lines 240-272):
no-op when the translation service, session descriptor or room data is
missing; early return after only the logging-status query when logging
is not enabled; otherwise translate (publishing the caption), save the
transcript, and notify the webhook sink. -/
def handle_transcription (mgr : ManagerState) (w : World) (env : HandleEnv)
    (text : String) (track : Option Track) :
    ManagerState × World × List Effect :=
  match mgr.translation_service, mgr.active_session, mgr.room_data with
  | some ts, some sess, some rd =>
    let chk := is_session_logging_enabled w.db rd.id env.qfail_logging
    if chk.1 = false then (mgr, w, chk.2)
    else
      let r := translate_text ts text track env.outcome env.sgid
      let saved := save_transcript w.db rd.id sess.id text r.returned
        env.ifail_transcript env.now
      let notifyEff := send_to_websocket_logger env.ws_configured rd.id rd.mosque_id
        text r.returned
      ({ mgr with translation_service := some r.service },
       { w with db := saved.1 },
       chk.2 ++ r.published.map Effect.publish ++ saved.2.2 ++ notifyEff)
  | _, _, _ => (mgr, w, [])

lemma sessionStatus_beq_iff (a b : SessionStatus) : (a == b) = true ↔ a = b := by
  cases a <;> cases b <;> decide

lemma sessionStatus_beq_self (a : SessionStatus) : (a == a) = true := by
  cases a <;> rfl

lemma filter_remove_eq_nil (cache : List (String × Nat × Nat × Nat)) (name : String) :
    (remove_session_info cache name).filter (fun p => p.1 == name) = [] := by
  unfold remove_session_info
  rw [List.filter_filter]
  apply List.filter_eq_nil_iff.mpr
  intro a _
  simp

lemma get_after_remove (cache : List (String × Nat × Nat × Nat)) (name : String) :
    get_session_info (remove_session_info cache name) name = none := by
  unfold get_session_info
  rw [filter_remove_eq_nil]
  rfl

/-- Claim C5: start_session is idempotent — with a working datastore,
the first call yields a session id, an immediately following call
yields the same id and leaves the datastore untouched, the first call
adds at most one row, and when an active session already exists its id
is adopted with no insert at all. -/
theorem start_session_idempotent (db : DB) (room_id mosque_id : Nat) :
    (sb_start_session db room_id mosque_id false false).2.1.isSome = true ∧
    (sb_start_session (sb_start_session db room_id mosque_id false false).1
        room_id mosque_id false false).2.1 =
      (sb_start_session db room_id mosque_id false false).2.1 ∧
    (sb_start_session (sb_start_session db room_id mosque_id false false).1
        room_id mosque_id false false).1 =
      (sb_start_session db room_id mosque_id false false).1 ∧
    (sb_start_session db room_id mosque_id false false).1.sessions.length ≤
      db.sessions.length + 1 ∧
    (∀ s, (get_active_session db room_id false).1 = some s →
      (sb_start_session db room_id mosque_id false false).2.1 = some s.id ∧
      (sb_start_session db room_id mosque_id false false).1 = db) := by
  cases hq : (get_active_session db room_id false).1 with
  | some s =>
    have h1 : sb_start_session db room_id mosque_id false false =
        (db, some s.id, [Effect.dbQueryActiveSession room_id]) := by
      simp only [sb_start_session]
      rw [hq]
      rfl
    have h2 : sb_start_session (sb_start_session db room_id mosque_id false false).1
        room_id mosque_id false false =
        (db, some s.id, [Effect.dbQueryActiveSession room_id]) := by
      rw [h1]
      exact h1
    refine ⟨?_, ?_, ?_, ?_, ?_⟩
    · rw [h1]; rfl
    · rw [h2, h1]
    · rw [h2, h1]
    · rw [h1]
      exact Nat.le_succ _
    · intro s2 hs2
      cases hs2
      rw [h1]
      exact ⟨rfl, rfl⟩
  | none =>
    have hfil : (db.sessions.filter fun s =>
        s.room_id == room_id && s.status == SessionStatus.active) = [] := by
      have h := hq
      simp only [get_active_session] at h
      rw [if_neg (show ¬ false = true from Bool.false_ne_true)] at h
      exact List.head?_eq_none_iff.mp h
    have h1 : sb_start_session db room_id mosque_id false false =
        ({ db with
            sessions := db.sessions ++
              [⟨db.next_session_id, room_id, mosque_id, SessionStatus.active, some true, 0, none⟩]
            next_session_id := db.next_session_id + 1 },
          some db.next_session_id,
          [Effect.dbQueryActiveSession room_id,
            Effect.dbInsertSession room_id mosque_id]) := by
      simp only [sb_start_session]
      rw [hq]
      rfl
    have hq2 : (get_active_session ({ db with
        sessions := db.sessions ++
          [⟨db.next_session_id, room_id, mosque_id, SessionStatus.active, some true, 0, none⟩]
        next_session_id := db.next_session_id + 1 }) room_id false).1 =
        some ⟨db.next_session_id, room_id, mosque_id, SessionStatus.active, some true, 0, none⟩ := by
      simp only [get_active_session]
      rw [if_neg (show ¬ false = true from Bool.false_ne_true)]
      rw [List.filter_append, hfil]
      simp [sessionStatus_beq_self]
    have h2 : sb_start_session (sb_start_session db room_id mosque_id false false).1
        room_id mosque_id false false =
        ((sb_start_session db room_id mosque_id false false).1,
          some db.next_session_id,
          [Effect.dbQueryActiveSession room_id]) := by
      rw [h1]
      simp only [sb_start_session]
      rw [hq2]
      rfl
    refine ⟨?_, ?_, ?_, ?_, ?_⟩
    · rw [h1]; rfl
    · rw [h2, h1]
    · rw [h2]
    · rw [h1]
      simp
    · intro s2 hs2
      cases hs2

/-- Witness for the claim C5 theorem: concrete datastore starting
empty, and a concrete datastore that already has an active session. -/
theorem start_session_idempotent_data :
    (sb_start_session (DB.mk [] [] 0) 1 2 false false).2.1.isSome = true ∧
    (sb_start_session (sb_start_session (DB.mk [] [] 0) 1 2 false false).1
        1 2 false false).2.1 =
      (sb_start_session (DB.mk [] [] 0) 1 2 false false).2.1 ∧
    (get_active_session
        (DB.mk [⟨7, 1, 2, SessionStatus.active, some true, 3, none⟩] [] 8) 1 false).1 =
      some ⟨7, 1, 2, SessionStatus.active, some true, 3, none⟩ ∧
    (sb_start_session
        (DB.mk [⟨7, 1, 2, SessionStatus.active, some true, 3, none⟩] [] 8) 1 2 false false).2.1 =
      some 7 ∧
    (sb_start_session
        (DB.mk [⟨7, 1, 2, SessionStatus.active, some true, 3, none⟩] [] 8) 1 2 false false).1 =
      DB.mk [⟨7, 1, 2, SessionStatus.active, some true, 3, none⟩] [] 8 :=
  ⟨(start_session_idempotent (DB.mk [] [] 0) 1 2).1,
    (start_session_idempotent (DB.mk [] [] 0) 1 2).2.1,
    by decide,
    ((start_session_idempotent
        (DB.mk [⟨7, 1, 2, SessionStatus.active, some true, 3, none⟩] [] 8) 1 2).2.2.2.2
      ⟨7, 1, 2, SessionStatus.active, some true, 3, none⟩ (by decide)).1,
    ((start_session_idempotent
        (DB.mk [⟨7, 1, 2, SessionStatus.active, some true, 3, none⟩] [] 8) 1 2).2.2.2.2
      ⟨7, 1, 2, SessionStatus.active, some true, 3, none⟩ (by decide)).2⟩

/-- Claim C8: stop_session with no cached active session descriptor
returns unchanged with an empty effect trace (no persistence call);
with a session active and a matching active datastore row, the row is
marked completed and the cache entry keyed by the room name is gone. -/
theorem stop_session_safe (mgr : ManagerState) (w : World) (qfail ufail : Bool) (now : Nat) :
    (mgr.active_session = none → mgr_stop_session mgr w qfail ufail now = (mgr, w, [])) ∧
    (∀ rd s, mgr.room_data = some rd → mgr.active_session.isSome = true →
      (get_active_session w.db rd.id false).1 = some s → qfail = false → ufail = false →
      (∀ r ∈ (mgr_stop_session mgr w qfail ufail now).2.1.db.sessions,
          r.id = s.id → r.status = SessionStatus.completed) ∧
      get_session_info (mgr_stop_session mgr w qfail ufail now).2.1.cache mgr.room_name =
        none) := by
  constructor
  · intro hnone
    cases hrd : mgr.room_data <;> simp [mgr_stop_session, hnone, hrd]
  · intro rd s hrd hsome hq hqf huf
    obtain ⟨sess, hsess⟩ := Option.isSome_iff_exists.mp hsome
    subst hqf huf
    have hstop : mgr_stop_session mgr w false false now =
        (mgr,
          { db := (sb_stop_session w.db rd.id false false now).1
            cache := remove_session_info w.cache mgr.room_name },
          (sb_stop_session w.db rd.id false false now).2.2) := by
      unfold mgr_stop_session
      rw [hrd, hsess]
    have hdb : (sb_stop_session w.db rd.id false false now).1 =
        { w.db with sessions := w.db.sessions.map fun r =>
            if r.id == s.id then
              { r with status := SessionStatus.completed, ended_at := some now }
            else r } := by
      simp only [sb_stop_session]
      rw [hq]
      rfl
    rw [hstop]
    constructor
    · intro r hr hrid
      rw [hdb] at hr
      obtain ⟨r0, hr0, hmap⟩ := List.mem_map.mp hr
      by_cases hid : (r0.id == s.id) = true
      · rw [if_pos hid] at hmap
        rw [← hmap]
      · rw [if_neg hid] at hmap
        subst hmap
        exact absurd (by simpa using hrid) hid
    · exact get_after_remove w.cache mgr.room_name

/-- Witness for the claim C8 theorem: an idle manager is a no-op, and
an active manager completes the datastore row and evicts the cache. -/
theorem stop_session_safe_data :
    (ManagerState.mk "room1" (some ⟨1, 2, "Hall"⟩) none none).active_session = none ∧
    mgr_stop_session (ManagerState.mk "room1" (some ⟨1, 2, "Hall"⟩) none none)
        (World.mk (DB.mk [⟨5, 1, 2, SessionStatus.active, some true, 0, none⟩] [] 6)
          [("room1", 5, 1, 2)]) false false 9 =
      (ManagerState.mk "room1" (some ⟨1, 2, "Hall"⟩) none none,
        World.mk (DB.mk [⟨5, 1, 2, SessionStatus.active, some true, 0, none⟩] [] 6)
          [("room1", 5, 1, 2)], []) ∧
    get_session_info
        (mgr_stop_session
          (ManagerState.mk "room1" (some ⟨1, 2, "Hall"⟩) (some ⟨5, 1, 2⟩) none)
          (World.mk (DB.mk [⟨5, 1, 2, SessionStatus.active, some true, 0, none⟩] [] 6)
            [("room1", 5, 1, 2)]) false false 9).2.1.cache "room1" = none :=
  ⟨rfl,
    (stop_session_safe (ManagerState.mk "room1" (some ⟨1, 2, "Hall"⟩) none none)
      (World.mk (DB.mk [⟨5, 1, 2, SessionStatus.active, some true, 0, none⟩] [] 6)
        [("room1", 5, 1, 2)]) false false 9).1 rfl,
    ((stop_session_safe (ManagerState.mk "room1" (some ⟨1, 2, "Hall"⟩) (some ⟨5, 1, 2⟩) none)
      (World.mk (DB.mk [⟨5, 1, 2, SessionStatus.active, some true, 0, none⟩] [] 6)
        [("room1", 5, 1, 2)]) false false 9).2 ⟨1, 2, "Hall"⟩
      ⟨5, 1, 2, SessionStatus.active, some true, 0, none⟩ rfl rfl (by decide) rfl rfl).2⟩

/-- A fully initialized manager used as concrete input: room row 1 of
mosque 2, session 5 cached, translation service built. -/
def mgrCx : ManagerState :=
  ⟨"room1", some ⟨1, 2, "Main Hall"⟩, some ⟨5, 1, 2⟩,
    some (TranslationService.init "agent" "en" "ar")⟩

/-- A world whose datastore holds the active session row 5 for room 1
with the logging_enabled flag persisted as false. -/
def wCx : World :=
  ⟨⟨[⟨5, 1, 2, SessionStatus.active, some false, 0, none⟩], [], 6⟩, [("room1", 5, 1, 2)]⟩

/-- An environment whose completion would succeed and whose webhook
sink is configured, so nothing but the logging gate can stop the
pipeline. -/
def envCx : HandleEnv :=
  ⟨CompletionOutcome.success [some "translated"], "SG_2", false, false, true, 0⟩

/-- Counterexample to claim C1 as stated: with the persisted
logging-enabled flag false, handle_transcription leaves every state
component unchanged and its whole effect trace is the single
logging-status query — in particular it publishes no translated
caption, contradicting the claimed translation and publish. -/
theorem logging_disabled_no_caption :
    handle_transcription mgrCx wCx envCx "hello there" (some ⟨"TR_2"⟩) =
      (mgrCx, wCx, [Effect.dbQueryActiveSession 1]) := by
  rfl

lemma handle_transcription_early_return (mgr : ManagerState) (w : World) (env : HandleEnv)
    (text : String) (track : Option Track) (ts : TranslationService)
    (sess : ActiveSessionInfo) (rd : RoomData)
    (hts : mgr.translation_service = some ts)
    (hsess : mgr.active_session = some sess)
    (hrd : mgr.room_data = some rd)
    (hdis : (is_session_logging_enabled w.db rd.id env.qfail_logging).1 = false) :
    handle_transcription mgr w env text track =
      (mgr, w, [Effect.dbQueryActiveSession rd.id]) := by
  unfold handle_transcription
  rw [hts, hsess, hrd]
  dsimp only
  rw [if_pos hdis]
  rfl

/-- Claim C1 (amended): when the persisted logging-enabled flag of the
session is false, handle_transcription on an initialized coordinator
returns early — zero persistence calls and zero notification calls,
and also no translation and no caption publish: the state is unchanged
and the only effect is the logging-status query itself. -/
theorem logging_disabled_skips_pipeline (mgr : ManagerState) (w : World) (env : HandleEnv)
    (text : String) (track : Option Track) (ts : TranslationService)
    (sess : ActiveSessionInfo) (rd : RoomData)
    (hts : mgr.translation_service = some ts)
    (hsess : mgr.active_session = some sess)
    (hrd : mgr.room_data = some rd)
    (hdis : (is_session_logging_enabled w.db rd.id env.qfail_logging).1 = false) :
    handle_transcription mgr w env text track =
      (mgr, w, [Effect.dbQueryActiveSession rd.id]) :=
  handle_transcription_early_return mgr w env text track ts sess rd hts hsess hrd hdis

/-- Witness for the claim C1 amended theorem at a concrete
initialized coordinator whose session row has logging disabled. -/
theorem logging_disabled_skips_pipeline_data :
    mgrCx.translation_service = some (TranslationService.init "agent" "en" "ar") ∧
    mgrCx.active_session = some ⟨5, 1, 2⟩ ∧
    mgrCx.room_data = some ⟨1, 2, "Main Hall"⟩ ∧
    (is_session_logging_enabled wCx.db 1 false).1 = false ∧
    handle_transcription mgrCx wCx envCx "a second sentence" none =
      (mgrCx, wCx, [Effect.dbQueryActiveSession 1]) :=
  ⟨rfl, rfl, rfl, rfl,
    logging_disabled_skips_pipeline mgrCx wCx envCx "a second sentence" none
      (TranslationService.init "agent" "en" "ar") ⟨5, 1, 2⟩ ⟨1, 2, "Main Hall"⟩
      rfl rfl rfl rfl⟩

/-- Claim C10: when the datastore has no active session row for the
room (or the query errors), is_session_logging_enabled returns false,
and handle_transcription consequently returns early — no translation,
no caption publish, no persistence, no notification — even though the
manager still holds a cached session descriptor. -/
theorem no_active_session_disables_handling (mgr : ManagerState) (w : World)
    (env : HandleEnv) (text : String) (track : Option Track) (ts : TranslationService)
    (sess : ActiveSessionInfo) (rd : RoomData)
    (hts : mgr.translation_service = some ts)
    (hsess : mgr.active_session = some sess)
    (hrd : mgr.room_data = some rd)
    (hno : (∀ s ∈ w.db.sessions, s.room_id = rd.id → s.status ≠ SessionStatus.active) ∨
      env.qfail_logging = true) :
    (is_session_logging_enabled w.db rd.id env.qfail_logging).1 = false ∧
    handle_transcription mgr w env text track =
      (mgr, w, [Effect.dbQueryActiveSession rd.id]) := by
  have hdis : (is_session_logging_enabled w.db rd.id env.qfail_logging).1 = false := by
    rcases hno with hno | hqf
    · cases hqf : env.qfail_logging with
      | true => simp [is_session_logging_enabled, get_active_session]
      | false =>
        have hfil : (w.db.sessions.filter fun s =>
            s.room_id == rd.id && s.status == SessionStatus.active) = [] := by
          apply List.filter_eq_nil_iff.mpr
          intro s hs hcontra
          rw [Bool.and_eq_true] at hcontra
          exact hno s hs (by simpa using hcontra.1)
            ((sessionStatus_beq_iff _ _).mp hcontra.2)
        simp [is_session_logging_enabled, get_active_session, hfil]
    · simp [is_session_logging_enabled, get_active_session, hqf]
  exact ⟨hdis,
    handle_transcription_early_return mgr w env text track ts sess rd hts hsess hrd hdis⟩

/-- A world whose datastore has only a completed session row for room
1, while the manager cache still holds a descriptor. -/
def wCx2 : World :=
  ⟨⟨[⟨5, 1, 2, SessionStatus.completed, some true, 4, some 7⟩], [], 6⟩, [("room1", 5, 1, 2)]⟩

lemma wCx2_no_active :
    ∀ s ∈ wCx2.db.sessions, s.room_id = 1 → s.status ≠ SessionStatus.active := by
  intro s hs
  simp [wCx2] at hs
  rw [hs]
  intro _ hcontra
  exact SessionStatus.noConfusion hcontra

/-- Witness for the claim C10 theorem: no active row in the datastore,
descriptor still cached on the manager. -/
theorem no_active_session_disables_handling_data :
    mgrCx.translation_service = some (TranslationService.init "agent" "en" "ar") ∧
    mgrCx.active_session = some ⟨5, 1, 2⟩ ∧
    mgrCx.room_data = some ⟨1, 2, "Main Hall"⟩ ∧
    (∀ s ∈ wCx2.db.sessions, s.room_id = 1 → s.status ≠ SessionStatus.active) ∧
    ((is_session_logging_enabled wCx2.db 1 false).1 = false ∧
      handle_transcription mgrCx wCx2 envCx "a third sentence" none =
        (mgrCx, wCx2, [Effect.dbQueryActiveSession 1])) :=
  ⟨rfl, rfl, rfl, wCx2_no_active,
    no_active_session_disables_handling mgrCx wCx2 envCx "a third sentence" none
      (TranslationService.init "agent" "en" "ar") ⟨5, 1, 2⟩ ⟨1, 2, "Main Hall"⟩
      rfl rfl rfl (Or.inl wCx2_no_active)⟩

end JamaTranslator
